import Mathlib

/-!
Shallow embedding of the lgn-coprocessor worker: task taxonomy
(lgn-messages), prover capabilities (lgn-provers), and the worker
serving loop (lgn-worker), together with theorems about their
behaviour.  External collaborators (the zero-knowledge proving
engines of verifiable_db/parsil, JSON codecs) are treated as opaque
capabilities and passed in as function parameters, following the
spec's scoping.
-/

namespace Lgn

/-- Byte strings are modelled as lists of naturals. -/
abbrev Bytes := List Nat

/-- Block numbers (u64 in the source). -/
abbrev BlockNr := Nat

/-- Opaque table hash identifier (from the lgn-messages crate root). -/
abbrev TableHash := Nat

/-- Opaque table identifier (from the lgn-messages crate root). -/
abbrev TableId := Nat

/-- 256-bit hashes are opaque identifiers here. -/
abbrev H256 := Nat

/-- Ethereum addresses are opaque identifiers here. -/
abbrev Address := Nat

/-- `type MptNodeVersion = (BlockNr, H256)` from ext_tasks.rs. -/
abbrev MptNodeVersion := BlockNr × H256

/-- Outcome of running Rust code that may panic: either a value or a
panic carrying the panic message. -/
inductive PanicOr (α : Type) where
  | value : α → PanicOr α
  | panicked : String → PanicOr α
deriving DecidableEq, Repr

/-- Map a function over the value of a `PanicOr`. -/
def PanicOr.map {α β : Type} (f : α → β) : PanicOr α → PanicOr β
  | .value a => .value (f a)
  | .panicked m => .panicked m

/-- Sequential collection of fallible results, the meaning of Rust's
`iter().map(f).collect::<Result<Vec<_>, _>>()` and of a `for` loop that
pushes `f(x)?` results: stops at the first error, returns the full list
otherwise (never a partial list). -/
def exceptMapM {α β ε : Type} (f : α → Except ε β) : List α → Except ε (List β)
  | [] => .ok []
  | x :: xs => do
    let y ← f x
    let ys ← exceptMapM f xs
    pure (y :: ys)

/-- Modelled from the spec: the structural node types produced by the
pure node-type classifier (the classifier itself, `node_type`, lives in
lgn-messages preprocessing code outside src/ and is kept a parameter). -/
inductive NodeType where
  | Leaf : NodeType
  | Branch : NodeType
  | Extension : NodeType
deriving DecidableEq, Repr

/-! ### Task taxonomy: lgn-messages/src/types/v1/preprocessing/ext_tasks.rs -/

/-- `Mpt` from ext_tasks.rs (the circuit input is opaque). -/
structure Mpt where
  table_hash : TableHash
  block_nr : BlockNr
  node_hash : H256
  circuit_input : Nat
deriving DecidableEq, Repr

/-- `Mpt::new`. -/
def Mpt.new (table_hash : TableId) (block_nr : BlockNr) (node_hash : H256)
    (circuit_input : Nat) : Mpt :=
  { table_hash := table_hash, block_nr := block_nr, node_hash := node_hash,
    circuit_input := circuit_input }

/-- `MappingLeafInput` from ext_tasks.rs. -/
structure MappingLeafInput where
  key : Bytes
  node : Bytes
  slot : Nat
  key_id : Nat
  value_id : Nat
deriving DecidableEq, Repr

/-- `MappingLeafInput::new`. -/
def MappingLeafInput.new (key : Bytes) (node : Bytes) (slot : Nat)
    (key_id : Nat) (value_id : Nat) : MappingLeafInput :=
  { key := key, node := node, slot := slot, key_id := key_id, value_id := value_id }

/-- `MappingBranchInput` from ext_tasks.rs. -/
structure MappingBranchInput where
  node : Bytes
  children : List MptNodeVersion
  children_proofs : List Bytes
deriving DecidableEq, Repr

/-- `MappingBranchInput::new`: fixes the required fields and initializes
`children_proofs` to the empty vector. -/
def MappingBranchInput.new (node : Bytes) (children : List MptNodeVersion) :
    MappingBranchInput :=
  { node := node, children := children, children_proofs := [] }

/-- `VariableBranchInput` from ext_tasks.rs. -/
structure VariableBranchInput where
  table_id : TableId
  node : Bytes
  children : List MptNodeVersion
  children_proofs : List Bytes
deriving DecidableEq, Repr

/-- `VariableBranchInput::new`. -/
def VariableBranchInput.new (table_id : TableId) (node : Bytes)
    (children : List MptNodeVersion) : VariableBranchInput :=
  { table_id := table_id, node := node, children := children, children_proofs := [] }

/-- `BatchedLength` from ext_tasks.rs. -/
structure BatchedLength where
  table_hash : TableHash
  block_nr : BlockNr
  length_slot : Nat
  variable_slot : Nat
  nodes : List Bytes
deriving DecidableEq, Repr

/-- `BatchedLength::extraction_types`: classify every node with the
node-type classifier, collecting into a single `Result` (all results in
node order, or the first classification error for the whole batch).
The classifier `node_type` is passed in as a parameter. -/
def BatchedLength.extraction_types (node_type : Bytes → Except String NodeType)
    (self : BatchedLength) : Except String (List NodeType) :=
  exceptMapM node_type self.nodes

/-- `BatchedContract` from ext_tasks.rs. -/
structure BatchedContract where
  block_nr : BlockNr
  storage_root : Bytes
  contract : Address
  nodes : List Bytes
deriving DecidableEq, Repr

/-- `BatchedContract::extraction_types`. -/
def BatchedContract.extraction_types (node_type : Bytes → Except String NodeType)
    (self : BatchedContract) : Except String (List NodeType) :=
  exceptMapM node_type self.nodes

/-- `BlockExtractionInput` from ext_tasks.rs. -/
structure BlockExtractionInput where
  rlp_header : Bytes
deriving DecidableEq, Repr

/-- `BlockExtractionInput::new`. -/
def BlockExtractionInput.new (rlp_header : Bytes) : BlockExtractionInput :=
  { rlp_header := rlp_header }

/-- `FinalExtractionType` from ext_tasks.rs. -/
inductive FinalExtractionType where
  | Simple : FinalExtractionType
  | Lengthed : FinalExtractionType
deriving DecidableEq, Repr

/-- `SingleTableExtraction` from ext_tasks.rs. -/
structure SingleTableExtraction where
  table_id : TableId
  table_hash : TableHash
  value_proof_version : MptNodeVersion
  block_nr : BlockNr
  contract : Address
  extraction_type : FinalExtractionType
  block_proof : Bytes
  contract_proof : Bytes
  value_proof : Bytes
  length_proof : Bytes
deriving DecidableEq, Repr

/-- `SingleTableExtraction::new`: the source sets
`extraction_type: todo!()`, so the constructor unconditionally panics
with "not yet implemented" before any field is initialized. -/
def SingleTableExtraction.new (_table_id : TableId) (_table_hash : TableHash)
    (_block_nr : BlockNr) (_contract : Address)
    (_value_proof_version : MptNodeVersion) : PanicOr SingleTableExtraction :=
  .panicked "not yet implemented"

/-- `MergeTableExtraction` from ext_tasks.rs. -/
structure MergeTableExtraction where
  table_id : TableId
  simple_table_hash : TableHash
  mapping_table_hash : TableHash
  block_nr : BlockNr
  contract : Address
  value_proof_version : MptNodeVersion
  block_proof : Bytes
  contract_proof : Bytes
  simple_table_proof : Bytes
  mapping_table_proof : Bytes
deriving DecidableEq, Repr

/-- `MergeTableExtraction::new`: fixes the required fields and
initializes the four proof accumulators to empty vectors. -/
def MergeTableExtraction.new (table_id : TableId) (simple_table_hash : TableHash)
    (mapping_table_hash : TableHash) (block_nr : BlockNr) (contract : Address)
    (value_proof_version : MptNodeVersion) : MergeTableExtraction :=
  { table_id := table_id, simple_table_hash := simple_table_hash,
    mapping_table_hash := mapping_table_hash, block_nr := block_nr,
    contract := contract, value_proof_version := value_proof_version,
    block_proof := [], contract_proof := [], simple_table_proof := [],
    mapping_table_proof := [] }

/-- `FinalExtraction` from ext_tasks.rs. -/
inductive FinalExtraction where
  | Single : SingleTableExtraction → FinalExtraction
  | Merge : MergeTableExtraction → FinalExtraction
deriving DecidableEq, Repr

/-- `FinalExtraction::new_single_table` delegates to
`SingleTableExtraction::new`, hence inherits its panic. -/
def FinalExtraction.new_single_table (table_id : TableId) (table_hash : TableHash)
    (block_nr : BlockNr) (contract : Address)
    (value_proof_version : MptNodeVersion) : PanicOr FinalExtraction :=
  (SingleTableExtraction.new table_id table_hash block_nr contract
    value_proof_version).map FinalExtraction.Single

/-- `FinalExtraction::new_merge_table`. -/
def FinalExtraction.new_merge_table (table_id : TableId)
    (simple_table_hash : TableHash) (mapping_table_hash : TableHash)
    (block_nr : BlockNr) (contract : Address)
    (value_proof_version : MptNodeVersion) : FinalExtraction :=
  FinalExtraction.Merge (MergeTableExtraction.new table_id simple_table_hash
    mapping_table_hash block_nr contract value_proof_version)

/-! ### Query task types (lgn-messages query tasks, as used by euclid_prover.rs) -/

/-- The parsed `DynamicCircuitPis` of parsil (external collaborator):
run_inner only forwards its three projected fields, each opaque here. -/
structure DynamicCircuitPis where
  bounds : Nat
  predication_operations : Nat
  result : Nat
deriving DecidableEq, Repr

/-- Per-row input of a Tabular step, with the fields read by run_inner
(`column_cells`, `placeholders`, `is_leaf`). -/
structure RowInput where
  column_cells : Bytes
  placeholders : Bytes
  is_leaf : Bool
deriving DecidableEq, Repr

/-- A matching-row descriptor of verifiable_db: an opaque descriptor
plus the proof slot filled by hydration. -/
structure MatchingRow where
  descriptor : Nat
  proof : Bytes
deriving DecidableEq, Repr

/-- The `RevelationInput::Tabular` payload, with the fields destructured
by run_inner (further fields are ignored there via `..`). -/
structure RevelationInput where
  placeholders : Nat
  indexing_proof : Bytes
  matching_rows : List MatchingRow
  column_ids : Nat
  limit : Nat
  offset : Nat
deriving DecidableEq, Repr

/-- `clone_proof` on the indexing proof reference: yields the proof bytes. -/
def clone_proof (p : Bytes) : Bytes := p

/-- Universal-query circuit inputs of verifiable_db are opaque. -/
abbrev UniversalCircuit := Nat

/-- Revelation circuit inputs of verifiable_db are opaque. -/
abbrev RevelationCircuit := Nat

/-- `verifiable_db::api::QueryCircuitInput`: either a universal query
circuit input or a revelation circuit input. -/
inductive QueryCircuitInput where
  | Query : UniversalCircuit → QueryCircuitInput
  | Revelation : RevelationCircuit → QueryCircuitInput
deriving DecidableEq, Repr

/-- `QueryStep` of the query task: a Tabular step carrying parallel row
inputs and a revelation input, or a direct boxed circuit input. -/
inductive QueryStep where
  | Tabular : List RowInput → RevelationInput → QueryStep
  | QueryCircuitInput : Lgn.QueryCircuitInput → QueryStep
deriving DecidableEq, Repr

/-- The query task payload, with the fields read by run_inner:
the embedded plan blob `pis` and the `query_step`. -/
structure QueryInput where
  pis : Bytes
  query_step : QueryStep
deriving DecidableEq, Repr

/-- `WorkerTaskType` of the query family: a single `Query` variant
(run_inner destructures it with an irrefutable let). -/
inductive WorkerTaskType where
  | Query : QueryInput → WorkerTaskType
deriving DecidableEq, Repr

/-- The external proving engine and codecs used by EuclidQueryProver
(parsil JSON parsing, verifiable_db circuit builders, parameter-backed
proof generation, and matching-row hydration), bundled as opaque
capabilities per the spec's scoping. -/
structure QueryEngine where
  parse_pis : Bytes → Except String DynamicCircuitPis
  new_universal_circuit : Bytes → Nat → Nat → Bytes → Bool → Nat →
    Except String UniversalCircuit
  generate_proof : QueryCircuitInput → Except String Bytes
  new_revelation_tabular : Bytes → List MatchingRow → Nat → Nat → Nat →
    Nat → Nat → Nat → Nat → Except String RevelationCircuit
  hydrate : MatchingRow → Bytes → MatchingRow

namespace EuclidQueryProver

/-- `EuclidQueryProver::prove_circuit_input`: delegate to the loaded
parameters' proof generation. -/
def prove_circuit_input (E : QueryEngine) (circuit_input : QueryCircuitInput) :
    Except String Bytes :=
  E.generate_proof circuit_input

/-- `EuclidQueryProver::prove_tabular_revelation`: build the tabular
revelation circuit input and prove it. -/
def prove_tabular_revelation (E : QueryEngine) (pis : DynamicCircuitPis)
    (placeholders : Nat) (indexing_proof : Bytes)
    (matching_rows : List MatchingRow) (column_ids : Nat)
    (limit : Nat) (offset : Nat) : Except String Bytes := do
  let circuit_input ← E.new_revelation_tabular indexing_proof matching_rows
    pis.bounds placeholders column_ids pis.predication_operations pis.result
    limit offset
  prove_circuit_input E (QueryCircuitInput.Revelation circuit_input)

/-- One iteration of run_inner's row loop: build the universal circuit
input from the row, prove it, and hydrate the paired matching row with
the resulting proof. -/
def rowStep (E : QueryEngine) (pis : DynamicCircuitPis)
    (rm : RowInput × MatchingRow) : Except String MatchingRow := do
  let circuit_input ← E.new_universal_circuit rm.1.column_cells
    pis.predication_operations pis.result rm.1.placeholders rm.1.is_leaf
    pis.bounds
  let proof ← prove_circuit_input E (QueryCircuitInput.Query circuit_input)
  pure (E.hydrate rm.2 proof)

/-- run_inner's hydration stage: the `for` loop over
`rows_inputs.iter().zip(matching_rows)`, accumulating hydrated matching
rows and propagating the first error. -/
def hydrated_matching_rows (E : QueryEngine) (pis : DynamicCircuitPis)
    (rows_inputs : List RowInput) (matching_rows : List MatchingRow) :
    Except String (List MatchingRow) :=
  exceptMapM (rowStep E pis) (rows_inputs.zip matching_rows)

/-- `EuclidQueryProver::run_inner`: parse the plan blob, then either run
the Tabular pipeline (row loop + revelation) or a single pass-through
proving call. -/
def run_inner (E : QueryEngine) (task_type : WorkerTaskType) :
    Except String Bytes := do
  let input := match task_type with | WorkerTaskType.Query input => input
  let pis ← E.parse_pis input.pis
  match input.query_step with
  | QueryStep.Tabular rows_inputs revelation_input => do
      let matching_rows_proofs ← hydrated_matching_rows E pis rows_inputs
        revelation_input.matching_rows
      prove_tabular_revelation E pis revelation_input.placeholders
        (clone_proof revelation_input.indexing_proof) matching_rows_proofs
        revelation_input.column_ids revelation_input.limit
        revelation_input.offset
  | QueryStep.QueryCircuitInput circuit_input =>
      prove_circuit_input E circuit_input

end EuclidQueryProver

/-! ### Envelopes and the prover capability interface -/

/-- A preprocessing task payload is opaque to the provers modelled here. -/
abbrev PreprocessingTask := Nat

/-- A Groth16 revelation payload is opaque to the provers modelled here. -/
abbrev Groth16Task := Nat

/-- `TaskType`: the closed three-way tagged union over task families. -/
inductive TaskType where
  | V1Preprocessing : PreprocessingTask → TaskType
  | V1Query : WorkerTaskType → TaskType
  | V1Groth16 : Groth16Task → TaskType
deriving DecidableEq, Repr

/-- `MessageEnvelope`: a task identifier plus exactly one task payload. -/
structure MessageEnvelope where
  task_id : String
  task : TaskType
deriving DecidableEq, Repr

/-- Modelled from the spec: `MessageReplyEnvelope` (defined in
lgn-messages outside src/) is the reply wrapper carrying the
originating task id and the proof bytes. -/
structure MessageReplyEnvelope where
  task_id : String
  proof : Bytes
deriving DecidableEq, Repr

/-- Modelled from the spec: `MessageReplyEnvelope::new` pairs a task id
with proof bytes. -/
def MessageReplyEnvelope.new (task_id : String) (proof : Bytes) :
    MessageReplyEnvelope :=
  { task_id := task_id, proof := proof }

/-- Outcome of an `LgnProver::run` call: an `anyhow::Result` whose error
case (`bail!`) is `error`, with a separate case for a Rust panic
escaping the call. -/
inductive RunResult where
  | ok : MessageReplyEnvelope → RunResult
  | error : String → RunResult
  | panicked : String → RunResult
deriving DecidableEq, Repr

/-- Modelled from the spec: `dummy_proof` (lgn-provers dummy_utils,
outside src/) returns fixed-size pseudo-proof bytes of the requested
length. -/
def dummy_proof (proof_size : Nat) : Bytes :=
  List.replicate proof_size 0

/-- `PROOF_SIZE` of the Groth16 dummy prover. -/
def PROOF_SIZE : Nat := 32

/-- `Groth16DummyProver::run`: bails on a preprocessing payload, panics
on a query payload, and answers a Groth16 payload with a dummy proof
under the envelope's task id. -/
def Groth16DummyProver.run (envelope : MessageEnvelope) : RunResult :=
  match envelope.task with
  | TaskType.V1Preprocessing _ =>
      RunResult.error "Groth16DummyProver: unsupported task type. task_type: V1Preprocessing"
  | TaskType.V1Query _ =>
      RunResult.panicked "Groth16DummyProver: unsupported task type. task_type: V1Query"
  | TaskType.V1Groth16 _ =>
      RunResult.ok (MessageReplyEnvelope.new envelope.task_id
        (dummy_proof PROOF_SIZE))

/-- `EuclidQueryProver::run` (LgnProver impl): bails on the two foreign
families, and on a query payload wraps run_inner's proof in a reply
envelope under the envelope's task id, or forwards its error. -/
def EuclidQueryProver.run (E : QueryEngine) (envelope : MessageEnvelope) :
    RunResult :=
  match envelope.task with
  | TaskType.V1Preprocessing _ =>
      RunResult.error
        ("EuclidQueryProver: unsupported task type. task_type: V1Preprocessing task_id: "
          ++ envelope.task_id)
  | TaskType.V1Query task_type =>
      match EuclidQueryProver.run_inner E task_type with
      | Except.ok proof =>
          RunResult.ok (MessageReplyEnvelope.new envelope.task_id proof)
      | Except.error err => RunResult.error err
  | TaskType.V1Groth16 _ =>
      RunResult.error
        ("EuclidQueryProver: unsupported task type. task_type: V1Groth16 task_id: "
          ++ envelope.task_id)

/-! ### Worker connection state machine: lgn-worker/src/main.rs -/

/-- The protobuf `TaskId` message wrapping raw id bytes. -/
structure ProtoTaskId where
  id : Bytes
deriving DecidableEq, Repr

/-- The inbound gateway message `WorkerToGwResponse`: an optional
protobuf task id plus the wire-encoded envelope bytes. -/
structure WorkerToGwResponse where
  task_id : Option ProtoTaskId
  task : Bytes
deriving DecidableEq, Repr

/-- UUIDs as produced by parse_uuid: the nil UUID or one built (little
endian) from exactly sixteen id bytes. -/
inductive Uuid where
  | nil : Uuid
  | from_bytes_le : Bytes → Uuid
deriving DecidableEq, Repr

/-- `parse_uuid`: nil when the message has no task id; otherwise converts
the id bytes into a sixteen-byte array and unwraps, so any other length
panics. -/
def parse_uuid (message : WorkerToGwResponse) : PanicOr Uuid :=
  match message.task_id with
  | none => PanicOr.value Uuid.nil
  | some id =>
      if id.id.length = 16 then PanicOr.value (Uuid.from_bytes_le id.id)
      else PanicOr.panicked "called Result unwrap on an Err value"

/-- `process_downstream_payload`: decode the envelope bytes (failure is
an error for this task), then run the registry dispatch inside a
`catch_unwind` boundary, converting a panic into a task error.  The
JSON decoder and the registry's `delegate_proving` are parameters; a
dispatch that may panic is a function into `RunResult`. -/
def process_downstream_payload
    (decode : Bytes → Except String MessageEnvelope)
    (delegate_proving : MessageEnvelope → RunResult)
    (message : WorkerToGwResponse) : Except String MessageReplyEnvelope :=
  match decode message.task with
  | Except.error _ => Except.error "Failed to deserialize envelope"
  | Except.ok envelope =>
      match delegate_proving envelope with
      | RunResult.ok reply => Except.ok reply
      | RunResult.error err => Except.error err
      | RunResult.panicked msg =>
          Except.error ("panic encountered while proving. msg: " ++ msg)

/-- The payload of an outbound `WorkerDone`: serialized reply bytes on
success, or a human-readable error string. -/
inductive WorkerDoneReply where
  | task_output : Bytes → WorkerDoneReply
  | worker_error : String → WorkerDoneReply
deriving DecidableEq, Repr

/-- An outbound `WorkerToGwRequest`: the initial `WorkerReady` handshake
(version and worker class string) or a `WorkerDone` reply echoing the
inbound message's raw task id. -/
inductive WorkerToGwRequest where
  | worker_ready : String → String → WorkerToGwRequest
  | worker_done : Option ProtoTaskId → WorkerDoneReply → WorkerToGwRequest
deriving DecidableEq, Repr

/-- An event observed on the inbound stream: `inbound.next()` yields a
message, an error status, or (end of list) stream end. -/
inductive InboundEvent where
  | msg : WorkerToGwResponse → InboundEvent
  | err_status : String → InboundEvent
deriving DecidableEq, Repr

/-- The serving loop of run_worker over a finite inbound prefix: for
each inbound message, parse its uuid (may panic), process the payload,
and either send a `WorkerDone` with the serialized reply and continue,
or send a `WorkerDone` carrying the error and bail out of the loop.
The result is the list of outbound `WorkerDone` messages together with
the bail message that ended the loop (run_worker never returns
normally), or the panic that escaped it. -/
def run_worker_loop (decode : Bytes → Except String MessageEnvelope)
    (delegate_proving : MessageEnvelope → RunResult)
    (encode : MessageReplyEnvelope → Bytes) :
    List InboundEvent → PanicOr (List WorkerToGwRequest × String)
  | [] => PanicOr.value ([], "inbound connection broken")
  | InboundEvent.err_status status :: _ =>
      PanicOr.value ([], "connection to the gateway ended. status: " ++ status)
  | InboundEvent.msg message :: rest =>
      match parse_uuid message with
      | PanicOr.panicked msg => PanicOr.panicked msg
      | PanicOr.value _uuid =>
          match process_downstream_payload decode delegate_proving message with
          | Except.ok reply_envelope =>
              (run_worker_loop decode delegate_proving encode rest).map
                (fun outcome =>
                  (WorkerToGwRequest.worker_done message.task_id
                    (WorkerDoneReply.task_output (encode reply_envelope))
                      :: outcome.1,
                   outcome.2))
          | Except.error err =>
              PanicOr.value
                ([WorkerToGwRequest.worker_done message.task_id
                  (WorkerDoneReply.worker_error err)],
                 "task processing failed. err: " ++ err)

/-- The full outbound message sequence of run_worker: the single
`WorkerReady` handshake queued before the stream opens, followed by the
serving loop's `WorkerDone` messages (none after a panic escapes). -/
def run_worker_outbound (version : String) (worker_kind : String)
    (decode : Bytes → Except String MessageEnvelope)
    (delegate_proving : MessageEnvelope → RunResult)
    (encode : MessageReplyEnvelope → Bytes)
    (inbound : List InboundEvent) : List WorkerToGwRequest :=
  WorkerToGwRequest.worker_ready version worker_kind ::
    (match run_worker_loop decode delegate_proving encode inbound with
     | PanicOr.value outcome => outcome.1
     | PanicOr.panicked _ => [])

/-- The modulus of 64-bit machine integers. -/
def U64_MOD : Nat := 18446744073709551616

/-- Wrapping subtraction on u64 values (release-build semantics of
Rust's `-` on u64), for arguments below the modulus. -/
def u64_sub (a b : Nat) : Nat := (a + U64_MOD - b) % U64_MOD

/-- The liveness route: HTTP 200 "OK" while the u64 difference between
the current unix time and the last processed task's unix time does not
exceed the liveness check interval, and HTTP 500 "FAIL" otherwise. -/
def liveness_route (liveness_check_interval : Nat) (last_processed : Nat)
    (now : Nat) : Nat × String :=
  if u64_sub now last_processed ≤ liveness_check_interval then (200, "OK")
  else (500, "FAIL")

/-- The readiness route: always HTTP 200 "OK". -/
def readiness_route : Nat × String := (200, "OK")

/-- Recognizer for the `WorkerReady` handshake among outbound messages. -/
def is_worker_ready : WorkerToGwRequest → Bool
  | WorkerToGwRequest.worker_ready _ _ => true
  | WorkerToGwRequest.worker_done _ _ => false

/-! ### Concrete fixtures used to evaluate the embedded code -/

/-- A query engine whose external operations all succeed, distinguishing
universal-circuit proofs from revelation proofs. -/
def okEngine : QueryEngine :=
  { parse_pis := fun _ =>
      Except.ok { bounds := 0, predication_operations := 0, result := 0 },
    new_universal_circuit := fun _ _ _ _ _ _ => Except.ok 0,
    generate_proof := fun circuit_input =>
      match circuit_input with
      | QueryCircuitInput.Query _ => Except.ok [7]
      | QueryCircuitInput.Revelation _ => Except.ok [9],
    new_revelation_tabular := fun _ _ _ _ _ _ _ _ _ => Except.ok 0,
    hydrate := fun m p => { descriptor := m.descriptor, proof := p } }

/-- The parsed plan fixture produced by okEngine. -/
def pis0 : DynamicCircuitPis :=
  { bounds := 0, predication_operations := 0, result := 0 }

/-- A concrete row input. -/
def row0 : RowInput := { column_cells := [], placeholders := [], is_leaf := true }

/-- A second concrete row input. -/
def row1 : RowInput := { column_cells := [1], placeholders := [2], is_leaf := false }

/-- A concrete matching-row descriptor with an empty proof slot. -/
def mrow (d : Nat) : MatchingRow := { descriptor := d, proof := [] }

/-- A revelation input with two matching-row descriptors. -/
def revInput2 : RevelationInput :=
  { placeholders := 0, indexing_proof := [], matching_rows := [mrow 0, mrow 1],
    column_ids := 0, limit := 0, offset := 0 }

/-- A Tabular query task with ONE row input but TWO matching rows: its
row counts disagree. -/
def mismatchTask : WorkerTaskType :=
  WorkerTaskType.Query
    { pis := [], query_step := QueryStep.Tabular [row0] revInput2 }

/-- An envelope carrying a query payload. -/
def queryEnvelope : MessageEnvelope :=
  { task_id := "t-query", task := TaskType.V1Query mismatchTask }

/-- An envelope carrying a Groth16 payload. -/
def g16Envelope : MessageEnvelope :=
  { task_id := "t-g16", task := TaskType.V1Groth16 0 }

/-- An envelope carrying a preprocessing payload. -/
def preprocessingEnvelope : MessageEnvelope :=
  { task_id := "t-pre", task := TaskType.V1Preprocessing 0 }

/-- A decoder that rejects every message body. -/
def decodeFail : Bytes → Except String MessageEnvelope :=
  fun _ => Except.error "bad json"

/-- A registry dispatch that always fails with a proving error. -/
def delegateFail : MessageEnvelope → RunResult :=
  fun _ => RunResult.error "proving failed"

/-- A reply encoder fixture. -/
def encode0 : MessageReplyEnvelope → Bytes := fun reply => reply.proof

/-- An inbound gateway message with no task id. -/
def inboundNoId : WorkerToGwResponse := { task_id := none, task := [1, 2] }

/-- An inbound gateway message with a malformed three-byte task id. -/
def inboundBadId : WorkerToGwResponse :=
  { task_id := some { id := [1, 2, 3] }, task := [1, 2] }

/-- A node-type classifier fixture that rejects empty nodes and labels
all others as leaves. -/
def classifier0 : Bytes → Except String NodeType :=
  fun node => if node.length = 0 then Except.error "empty node"
    else Except.ok NodeType.Leaf

/-- A concrete length batch with two nonempty nodes. -/
def batchedLength0 : BatchedLength :=
  { table_hash := 0, block_nr := 0, length_slot := 0, variable_slot := 0,
    nodes := [[1], [2]] }

/-- A concrete contract batch with one nonempty node. -/
def batchedContract0 : BatchedContract :=
  { block_nr := 0, storage_root := [], contract := 0, nodes := [[3]] }

/-! ### Helper lemmas on fallible collection -/

theorem exceptMapM_ok_iff {α β ε : Type} (f : α → Except ε β) :
    ∀ (l : List α) (out : List β),
      exceptMapM f l = Except.ok out ↔
        List.Forall₂ (fun x y => f x = Except.ok y) l out := by
  intro l
  induction l with
  | nil =>
    intro out
    constructor
    · intro h
      cases out with
      | nil => exact List.Forall₂.nil
      | cons b bs => simp [exceptMapM] at h
    · intro h
      cases h
      rfl
  | cons x xs ih =>
    intro out
    cases hfx : f x with
    | error e =>
      constructor
      · intro h
        simp [exceptMapM, hfx, Bind.bind, Except.bind] at h
      · intro h
        cases h with
        | cons hxy _ => rw [hfx] at hxy; cases hxy
    | ok b =>
      cases hrest : exceptMapM f xs with
      | error e =>
        constructor
        · intro h
          simp [exceptMapM, hfx, hrest, Bind.bind, Except.bind] at h
        · intro h
          cases h with
          | cons _ htail =>
            have := (ih _).mpr htail
            rw [hrest] at this
            cases this
      | ok ys =>
        have hstep : exceptMapM f (x :: xs) = Except.ok (b :: ys) := by
          simp [exceptMapM, hfx, hrest, Bind.bind, Except.bind, pure, Except.pure]
        constructor
        · intro h
          rw [hstep] at h
          cases h
          exact List.Forall₂.cons hfx ((ih ys).mp hrest)
        · intro h
          cases h with
          | cons hxy htail =>
            rw [hfx] at hxy
            cases hxy
            have := (ih _).mpr htail
            rw [hrest] at this
            cases this
            exact hstep

theorem exceptMapM_isOk_iff {α β ε : Type} (f : α → Except ε β) (l : List α) :
    (exceptMapM f l).isOk = true ↔ ∀ x ∈ l, (f x).isOk = true := by
  induction l with
  | nil => simp [exceptMapM, Except.isOk, Except.toBool]
  | cons x xs ih =>
    cases hfx : f x with
    | error e =>
      simp only [exceptMapM, hfx, Bind.bind, Except.bind]
      constructor
      · intro h
        simp [Except.isOk, Except.toBool] at h
      · intro h
        have := h x (List.mem_cons_self x xs)
        rw [hfx] at this
        simp [Except.isOk, Except.toBool] at this
    | ok b =>
      cases hrest : exceptMapM f xs with
      | error e =>
        simp only [exceptMapM, hfx, hrest, Bind.bind, Except.bind]
        constructor
        · intro h
          simp [Except.isOk, Except.toBool] at h
        · intro h
          have : (exceptMapM f xs).isOk = true := by
            rw [ih]
            intro y hy
            exact h y (List.mem_cons_of_mem x hy)
          rw [hrest] at this
          simp [Except.isOk, Except.toBool] at this
      | ok ys =>
        simp only [exceptMapM, hfx, hrest, Bind.bind, Except.bind]
        constructor
        · intro _ y hy
          rcases List.mem_cons.mp hy with h | h
          · rw [h, hfx]; rfl
          · have : (exceptMapM f xs).isOk = true := by rw [hrest]; rfl
            exact (ih.mp this) y h
        · intro _
          rfl

theorem exceptMapM_eq_map {α β ε : Type} (f : α → Except ε β) (g : α → β) :
    ∀ l : List α, (∀ x ∈ l, f x = Except.ok (g x)) →
      exceptMapM f l = Except.ok (l.map g) := by
  intro l
  induction l with
  | nil => intro _; rfl
  | cons x xs ih =>
    intro h
    have hx : f x = Except.ok (g x) := h x (List.mem_cons_self x xs)
    have hxs : exceptMapM f xs = Except.ok (xs.map g) :=
      ih (fun y hy => h y (List.mem_cons_of_mem x hy))
    simp [exceptMapM, hx, hxs, Bind.bind, Except.bind, pure, Except.pure]

theorem zip_take_min {α β : Type} :
    ∀ (l₁ : List α) (l₂ : List β) (n : Nat),
      min l₁.length l₂.length ≤ n →
        (l₁.take n).zip (l₂.take n) = l₁.zip l₂ := by
  intro l₁
  induction l₁ with
  | nil => intro l₂ n _; simp
  | cons x xs ih =>
    intro l₂ n hn
    cases l₂ with
    | nil => simp
    | cons y ys =>
      cases n with
      | zero => simp at hn
      | succ m =>
        simp only [List.take_succ_cons, List.zip_cons_cons]
        rw [ih ys m]
        simp only [List.length_cons] at hn
        omega

/-! ### Claim theorems -/

/-- C3: the claim says every task-variant constructor terminates
normally with all proof-accumulator fields empty.  The branch and merge
constructors do, but `SingleTableExtraction::new` panics unconditionally
via `todo!()` on `extraction_type` (a code bug: the surrounding literal
shows the intended construction), and `FinalExtraction::new_single_table`
inherits that panic.  This theorem evaluates the code at the failing
input and records the empty accumulators of the other constructors. -/
theorem C3_constructor_accumulators :
    SingleTableExtraction.new 1 2 3 4 (5, 6) = PanicOr.panicked "not yet implemented"
    ∧ (∀ node children,
        (MappingBranchInput.new node children).children_proofs = [])
    ∧ (∀ table_id node children,
        (VariableBranchInput.new table_id node children).children_proofs = [])
    ∧ (∀ table_id sh mh block_nr contract v,
        (MergeTableExtraction.new table_id sh mh block_nr contract v).block_proof = []
        ∧ (MergeTableExtraction.new table_id sh mh block_nr contract v).contract_proof = []
        ∧ (MergeTableExtraction.new table_id sh mh block_nr contract v).simple_table_proof = []
        ∧ (MergeTableExtraction.new table_id sh mh block_nr contract v).mapping_table_proof = [])
    ∧ (∀ table_id th block_nr contract v,
        FinalExtraction.new_single_table table_id th block_nr contract v
          = PanicOr.panicked "not yet implemented") :=
  ⟨rfl,
   fun _ _ => rfl,
   fun _ _ _ => rfl,
   fun _ _ _ _ _ _ => ⟨rfl, rfl, rfl, rfl⟩,
   fun _ _ _ _ _ => rfl⟩

/-- C1 counterexample: a Tabular task with ONE row input and TWO
matching rows (counts disagree), run against an engine whose external
operations all succeed, makes run_inner return a proof instead of
failing with an input-mismatch error: the zip truncates silently. -/
theorem C1_mismatch_not_fatal_counterexample :
    [row0].length ≠ revInput2.matching_rows.length
    ∧ EuclidQueryProver.run_inner okEngine mismatchTask = Except.ok [9] :=
  ⟨by decide, rfl⟩

/-- C1 (amended): run_inner performs no row-count check; it pairs row
inputs with matching rows positionally and truncates to the shorter
sequence, so the result is identical to running on both sequences
truncated to their common length. -/
theorem C1_mismatch_truncates (E : QueryEngine) (pis_blob : Bytes)
    (rows_inputs : List RowInput) (revelation_input : RevelationInput) (n : Nat)
    (hn : min rows_inputs.length revelation_input.matching_rows.length ≤ n) :
    EuclidQueryProver.run_inner E (WorkerTaskType.Query
      { pis := pis_blob, query_step := QueryStep.Tabular rows_inputs revelation_input })
    = EuclidQueryProver.run_inner E (WorkerTaskType.Query
      { pis := pis_blob, query_step := QueryStep.Tabular (rows_inputs.take n)
          { revelation_input with
              matching_rows := revelation_input.matching_rows.take n } }) := by
  simp only [EuclidQueryProver.run_inner, EuclidQueryProver.hydrated_matching_rows]
  rw [zip_take_min rows_inputs revelation_input.matching_rows n hn]

/-- C1 witness: the truncation equation evaluated on the concrete
mismatched task. -/
theorem C1_mismatch_truncates_witness :
    EuclidQueryProver.run_inner okEngine mismatchTask
    = EuclidQueryProver.run_inner okEngine (WorkerTaskType.Query
      { pis := [], query_step := QueryStep.Tabular ([row0].take 1)
          { revInput2 with
              matching_rows := revInput2.matching_rows.take 1 } }) :=
  C1_mismatch_truncates okEngine [] [row0] revInput2 1 (by decide)

/-- C2 counterexample: the Groth16 dummy capability, fed a Query-family
payload, panics with its "unsupported task type" message rather than
returning the routing error as its result. -/
theorem C2_dummy_panics_counterexample :
    Groth16DummyProver.run queryEnvelope
      = RunResult.panicked "Groth16DummyProver: unsupported task type. task_type: V1Query" :=
  rfl

/-- C2 (amended): a capability rejects every payload of a foreign
family and never returns a proof for it; EuclidQueryProver returns an
"unsupported task type" error for both foreign families, while
Groth16DummyProver returns that error for Preprocessing payloads but
panics (instead of returning the error) for Query payloads. -/
theorem C2_foreign_family_rejected (E : QueryEngine) (envelope : MessageEnvelope) :
    (∀ p, envelope.task = TaskType.V1Preprocessing p →
        EuclidQueryProver.run E envelope
          = RunResult.error
              ("EuclidQueryProver: unsupported task type. task_type: V1Preprocessing task_id: "
                ++ envelope.task_id)
        ∧ Groth16DummyProver.run envelope
          = RunResult.error "Groth16DummyProver: unsupported task type. task_type: V1Preprocessing")
    ∧ (∀ g, envelope.task = TaskType.V1Groth16 g →
        EuclidQueryProver.run E envelope
          = RunResult.error
              ("EuclidQueryProver: unsupported task type. task_type: V1Groth16 task_id: "
                ++ envelope.task_id))
    ∧ (∀ q, envelope.task = TaskType.V1Query q →
        Groth16DummyProver.run envelope
          = RunResult.panicked "Groth16DummyProver: unsupported task type. task_type: V1Query"
        ∧ ∀ reply, Groth16DummyProver.run envelope ≠ RunResult.ok reply) := by
  refine ⟨?_, ?_, ?_⟩ <;> intro x hx <;>
    simp [EuclidQueryProver.run, Groth16DummyProver.run, hx]

/-- C2 witness: both capabilities reject a concrete preprocessing
envelope with their tagged routing errors. -/
theorem C2_foreign_family_rejected_witness :
    EuclidQueryProver.run okEngine preprocessingEnvelope
      = RunResult.error
          ("EuclidQueryProver: unsupported task type. task_type: V1Preprocessing task_id: "
            ++ preprocessingEnvelope.task_id)
    ∧ Groth16DummyProver.run preprocessingEnvelope
      = RunResult.error "Groth16DummyProver: unsupported task type. task_type: V1Preprocessing" :=
  (C2_foreign_family_rejected okEngine preprocessingEnvelope).1 0 rfl

/-- C4: whenever a capability's run returns a reply envelope, that
reply carries exactly the task id of the request envelope, for both the
Euclid query capability and the Groth16 dummy capability. -/
theorem C4_reply_echoes_task_id (E : QueryEngine) (envelope : MessageEnvelope)
    (reply : MessageReplyEnvelope) :
    (EuclidQueryProver.run E envelope = RunResult.ok reply →
      reply.task_id = envelope.task_id)
    ∧ (Groth16DummyProver.run envelope = RunResult.ok reply →
      reply.task_id = envelope.task_id) := by
  constructor
  · intro h
    cases htask : envelope.task with
    | V1Preprocessing p => simp [EuclidQueryProver.run, htask] at h
    | V1Query q =>
      simp only [EuclidQueryProver.run, htask] at h
      cases hrun : EuclidQueryProver.run_inner E q with
      | ok proof =>
        simp only [hrun] at h
        cases h
        rfl
      | error e => simp [hrun] at h
    | V1Groth16 g => simp [EuclidQueryProver.run, htask] at h
  · intro h
    cases htask : envelope.task with
    | V1Preprocessing p => simp [Groth16DummyProver.run, htask] at h
    | V1Query q => simp [Groth16DummyProver.run, htask] at h
    | V1Groth16 g =>
      simp only [Groth16DummyProver.run, htask] at h
      cases h
      rfl

/-- C4 witness: the Groth16 dummy capability answers a concrete Groth16
envelope, and the reply's task id equals the envelope's. -/
theorem C4_reply_echoes_task_id_witness :
    (MessageReplyEnvelope.new "t-g16" (dummy_proof PROOF_SIZE)).task_id
      = g16Envelope.task_id :=
  (C4_reply_echoes_task_id okEngine g16Envelope
    (MessageReplyEnvelope.new "t-g16" (dummy_proof PROOF_SIZE))).2 rfl

/-- C6: for in-range unix times with the last-success time not after
now, a liveness probe answers HTTP 200 "OK" exactly when the elapsed
seconds are at most the liveness check interval, and HTTP 500 "FAIL"
exactly when they exceed it. -/
theorem C6_liveness_window (liveness_check_interval last_processed now : Nat)
    (h1 : last_processed ≤ now) (h2 : now < U64_MOD) :
    (liveness_route liveness_check_interval last_processed now = (200, "OK")
      ↔ now - last_processed ≤ liveness_check_interval)
    ∧ (liveness_route liveness_check_interval last_processed now = (500, "FAIL")
      ↔ liveness_check_interval < now - last_processed) := by
  have hm : U64_MOD = 18446744073709551616 := rfl
  have hsub : u64_sub now last_processed = now - last_processed := by
    unfold u64_sub
    rw [hm] at h2 ⊢
    omega
  unfold liveness_route
  rw [hsub]
  by_cases hc : now - last_processed ≤ liveness_check_interval
  · rw [if_pos hc]
    constructor
    · exact ⟨fun _ => hc, fun _ => rfl⟩
    · constructor
      · intro h
        exact absurd h (by simp)
      · intro h
        exact absurd hc (not_le.mpr h)
  · rw [if_neg hc]
    constructor
    · constructor
      · intro h
        exact absurd h (by simp)
      · intro h
        exact absurd h hc
    · exact ⟨fun _ => not_le.mp hc, fun _ => rfl⟩

/-- C6 witness: with a 30-second interval and a success at time 0, a
probe at 20s answers OK and a probe at 40s answers FAIL. -/
theorem C6_liveness_window_witness :
    liveness_route 30 0 20 = (200, "OK") ∧ liveness_route 30 0 40 = (500, "FAIL") :=
  ⟨((C6_liveness_window 30 0 20 (by decide) (by decide)).1).mpr (by decide),
   ((C6_liveness_window 30 0 40 (by decide) (by decide)).2).mpr (by decide)⟩

/-- C7: classifying the nodes of a batched length or contract task
yields one classification per node, in node order, when it succeeds;
and it succeeds exactly when the classifier succeeds on every node of
the batch, so any failure aborts the whole batch with no partial
list. -/
theorem C7_batch_classification (node_type : Bytes → Except String NodeType)
    (b : BatchedLength) (c : BatchedContract) :
    (∀ out, BatchedLength.extraction_types node_type b = Except.ok out →
        out.length = b.nodes.length
        ∧ ∀ (i : Nat) (hi : i < b.nodes.length) (ho : i < out.length),
            node_type (b.nodes.get ⟨i, hi⟩) = Except.ok (out.get ⟨i, ho⟩))
    ∧ ((BatchedLength.extraction_types node_type b).isOk = true
        ↔ ∀ node ∈ b.nodes, (node_type node).isOk = true)
    ∧ (∀ out, BatchedContract.extraction_types node_type c = Except.ok out →
        out.length = c.nodes.length
        ∧ ∀ (i : Nat) (hi : i < c.nodes.length) (ho : i < out.length),
            node_type (c.nodes.get ⟨i, hi⟩) = Except.ok (out.get ⟨i, ho⟩))
    ∧ ((BatchedContract.extraction_types node_type c).isOk = true
        ↔ ∀ node ∈ c.nodes, (node_type node).isOk = true) := by
  refine ⟨?_, ?_, ?_, ?_⟩
  · intro out h
    have hf := (exceptMapM_ok_iff node_type b.nodes out).mp h
    obtain ⟨hlen, hget⟩ := List.forall₂_iff_get.mp hf
    exact ⟨hlen.symm, fun i hi ho => hget i hi ho⟩
  · exact exceptMapM_isOk_iff node_type b.nodes
  · intro out h
    have hf := (exceptMapM_ok_iff node_type c.nodes out).mp h
    obtain ⟨hlen, hget⟩ := List.forall₂_iff_get.mp hf
    exact ⟨hlen.symm, fun i hi ho => hget i hi ho⟩
  · exact exceptMapM_isOk_iff node_type c.nodes

/-- C7 witness: the concrete classifier succeeds on both concrete
batches, and the length batch's output has one entry per node. -/
theorem C7_batch_classification_witness :
    ([NodeType.Leaf, NodeType.Leaf].length = batchedLength0.nodes.length)
    ∧ (BatchedContract.extraction_types classifier0 batchedContract0).isOk = true :=
  ⟨((C7_batch_classification classifier0 batchedLength0 batchedContract0).1
      [NodeType.Leaf, NodeType.Leaf] rfl).1,
   ((C7_batch_classification classifier0 batchedLength0 batchedContract0).2.2.2).mpr
      (by decide)⟩

/-- C10: parse_uuid returns the nil UUID when the inbound message has
no task id; a present sixteen-byte id yields a UUID; any other present
length panics on the unwrap, and that panic escapes the serving loop
before any dispatch or reply (no WorkerDone is produced, whatever the
decoder and registry would do). -/
theorem C10_parse_uuid_panics (message : WorkerToGwResponse) :
    (message.task_id = none → parse_uuid message = PanicOr.value Uuid.nil)
    ∧ (∀ id, message.task_id = some id → id.id.length = 16 →
        parse_uuid message = PanicOr.value (Uuid.from_bytes_le id.id))
    ∧ (∀ id, message.task_id = some id → id.id.length ≠ 16 →
        parse_uuid message = PanicOr.panicked "called Result unwrap on an Err value")
    ∧ (∀ id, message.task_id = some id → id.id.length ≠ 16 →
        ∀ decode delegate_proving encode (rest : List InboundEvent),
          run_worker_loop decode delegate_proving encode
              (InboundEvent.msg message :: rest)
            = PanicOr.panicked "called Result unwrap on an Err value") := by
  refine ⟨?_, ?_, ?_, ?_⟩
  · intro h
    simp [parse_uuid, h]
  · intro id h hlen
    simp [parse_uuid, h, hlen]
  · intro id h hlen
    simp [parse_uuid, h, hlen]
  · intro id h hlen decode delegate_proving encode rest
    simp [run_worker_loop, parse_uuid, h, hlen]

/-- C10 witness: a concrete three-byte task id crashes the serving loop
with the unwrap panic and produces no outbound message. -/
theorem C10_parse_uuid_panics_witness :
    run_worker_loop decodeFail delegateFail encode0 [InboundEvent.msg inboundBadId]
      = PanicOr.panicked "called Result unwrap on an Err value" :=
  (C10_parse_uuid_panics inboundBadId).2.2.2 { id := [1, 2, 3] } rfl (by decide)
    decodeFail delegateFail encode0 []

/-- Every outbound message produced inside the serving loop is a
`WorkerDone`; the loop never emits a `WorkerReady` handshake. -/
theorem run_worker_loop_sends_only_done
    (decode : Bytes → Except String MessageEnvelope)
    (delegate_proving : MessageEnvelope → RunResult)
    (encode : MessageReplyEnvelope → Bytes) :
    ∀ (inbound : List InboundEvent) (outs : List WorkerToGwRequest) (bailmsg : String),
      run_worker_loop decode delegate_proving encode inbound
        = PanicOr.value (outs, bailmsg) →
      ∀ req ∈ outs, is_worker_ready req = false := by
  intro inbound
  induction inbound with
  | nil =>
    intro outs bailmsg h req hreq
    simp only [run_worker_loop, PanicOr.value.injEq, Prod.mk.injEq] at h
    obtain ⟨h1, _⟩ := h
    rw [← h1] at hreq
    simp at hreq
  | cons ev rest ih =>
    intro outs bailmsg h req hreq
    cases ev with
    | err_status st =>
      simp only [run_worker_loop, PanicOr.value.injEq, Prod.mk.injEq] at h
      obtain ⟨h1, _⟩ := h
      rw [← h1] at hreq
      simp at hreq
    | msg m =>
      simp only [run_worker_loop] at h
      cases hu : parse_uuid m with
      | panicked pm =>
        rw [hu] at h
        simp at h
      | value u =>
        rw [hu] at h
        cases hp : process_downstream_payload decode delegate_proving m with
        | error err =>
          rw [hp] at h
          simp only [PanicOr.value.injEq, Prod.mk.injEq] at h
          obtain ⟨h1, _⟩ := h
          rw [← h1] at hreq
          simp only [List.mem_singleton] at hreq
          rw [hreq]
          rfl
        | ok reply_envelope =>
          rw [hp] at h
          cases hrec : run_worker_loop decode delegate_proving encode rest with
          | panicked pm =>
            rw [hrec] at h
            simp [PanicOr.map] at h
          | value outcome =>
            rw [hrec] at h
            simp only [PanicOr.map, PanicOr.value.injEq, Prod.mk.injEq] at h
            obtain ⟨h1, _⟩ := h
            rw [← h1] at hreq
            rcases List.mem_cons.mp hreq with hhead | htail
            · rw [hhead]
              rfl
            · exact ih outcome.1 outcome.2 (by rw [hrec]) req htail

/-- C9: the outbound stream opens with the single `WorkerReady`
handshake (carrying the version and worker class strings), it is the
only handshake ever sent, and no handshake occurs after the head — so
it precedes every `WorkerDone` reply. -/
theorem C9_ready_handshake_first_and_once (version worker_kind : String)
    (decode : Bytes → Except String MessageEnvelope)
    (delegate_proving : MessageEnvelope → RunResult)
    (encode : MessageReplyEnvelope → Bytes) (inbound : List InboundEvent) :
    (run_worker_outbound version worker_kind decode delegate_proving encode inbound).head?
      = some (WorkerToGwRequest.worker_ready version worker_kind)
    ∧ List.countP is_worker_ready
        (run_worker_outbound version worker_kind decode delegate_proving encode inbound) = 1
    ∧ List.countP is_worker_ready
        (run_worker_outbound version worker_kind decode delegate_proving encode inbound).tail
      = 0 := by
  unfold run_worker_outbound
  cases hloop : run_worker_loop decode delegate_proving encode inbound with
  | panicked pm =>
    refine ⟨rfl, ?_, rfl⟩
    simp [is_worker_ready]
  | value outcome =>
    have hall : ∀ req ∈ outcome.1, is_worker_ready req = false :=
      run_worker_loop_sends_only_done decode delegate_proving encode inbound
        outcome.1 outcome.2 (by rw [hloop])
    have hz : List.countP is_worker_ready outcome.1 = 0 :=
      List.countP_eq_zero.mpr (by intro a ha; simp [hall a ha])
    refine ⟨rfl, ?_, ?_⟩
    · simp [List.countP_cons, hz, is_worker_ready]
    · simpa using hz

/-- C5: whenever processing an inbound task fails — the decoder
rejects the bytes, the dispatch reports a proving error, or a panic is
caught at the dispatch boundary — the serving loop sends exactly one
`WorkerDone` carrying the error and bails out, independently of any
further inbound messages: it never reaches a subsequent task. -/
theorem C5_failure_reply_then_terminate
    (decode : Bytes → Except String MessageEnvelope)
    (delegate_proving : MessageEnvelope → RunResult)
    (encode : MessageReplyEnvelope → Bytes)
    (message : WorkerToGwResponse) (u : Uuid) (err : String)
    (huuid : parse_uuid message = PanicOr.value u)
    (hfail : process_downstream_payload decode delegate_proving message
      = Except.error err) :
    (∀ rest : List InboundEvent,
      run_worker_loop decode delegate_proving encode
          (InboundEvent.msg message :: rest)
        = PanicOr.value
            ([WorkerToGwRequest.worker_done message.task_id
               (WorkerDoneReply.worker_error err)],
             "task processing failed. err: " ++ err))
    ∧ (∀ e, decode message.task = Except.error e →
        process_downstream_payload decode delegate_proving message
          = Except.error "Failed to deserialize envelope")
    ∧ (∀ envl e2, decode message.task = Except.ok envl →
        delegate_proving envl = RunResult.error e2 →
        process_downstream_payload decode delegate_proving message
          = Except.error e2)
    ∧ (∀ envl pm, decode message.task = Except.ok envl →
        delegate_proving envl = RunResult.panicked pm →
        process_downstream_payload decode delegate_proving message
          = Except.error ("panic encountered while proving. msg: " ++ pm)) := by
  refine ⟨?_, ?_, ?_, ?_⟩
  · intro rest
    simp only [run_worker_loop, huuid, hfail]
  · intro e he
    simp [process_downstream_payload, he]
  · intro envl e2 he hd
    simp [process_downstream_payload, he, hd]
  · intro envl pm he hd
    simp [process_downstream_payload, he, hd]

/-- C5 witness: with a decoder that rejects the body, the loop on a
concrete task emits the single error `WorkerDone` and bails, and a
trailing inbound task is never processed. -/
theorem C5_failure_reply_then_terminate_witness :
    run_worker_loop decodeFail delegateFail encode0 [InboundEvent.msg inboundNoId]
      = PanicOr.value
          ([WorkerToGwRequest.worker_done inboundNoId.task_id
             (WorkerDoneReply.worker_error "Failed to deserialize envelope")],
           "task processing failed. err: " ++ "Failed to deserialize envelope") :=
  (C5_failure_reply_then_terminate decodeFail delegateFail encode0 inboundNoId
    Uuid.nil "Failed to deserialize envelope" rfl rfl).1 []

/-- C8: when every per-row proving step succeeds, the hydrated output
is exactly the positional map of the paired inputs: it has one entry
per zipped pair, the i-th entry is the i-th matching row hydrated from
the i-th row input, and jointly permuting the two input sequences
permutes the hydrated output identically (no sorting). -/
theorem C8_hydration_positional (E : QueryEngine) (pis : DynamicCircuitPis)
    (rows_inputs : List RowInput) (matching_rows : List MatchingRow)
    (outFn : RowInput × MatchingRow → MatchingRow)
    (hok : ∀ pr ∈ rows_inputs.zip matching_rows,
      EuclidQueryProver.rowStep E pis pr = Except.ok (outFn pr)) :
    EuclidQueryProver.hydrated_matching_rows E pis rows_inputs matching_rows
      = Except.ok ((rows_inputs.zip matching_rows).map outFn)
    ∧ (∀ (i : Nat) (h1 : i < rows_inputs.length) (h2 : i < matching_rows.length)
        (h3 : i < ((rows_inputs.zip matching_rows).map outFn).length),
        ((rows_inputs.zip matching_rows).map outFn).get ⟨i, h3⟩
          = outFn (rows_inputs.get ⟨i, h1⟩, matching_rows.get ⟨i, h2⟩))
    ∧ (∀ (rows' : List RowInput) (ms' : List MatchingRow),
        List.Perm (rows'.zip ms') (rows_inputs.zip matching_rows) →
          EuclidQueryProver.hydrated_matching_rows E pis rows' ms'
            = Except.ok ((rows'.zip ms').map outFn)
          ∧ List.Perm ((rows'.zip ms').map outFn)
              ((rows_inputs.zip matching_rows).map outFn)) := by
  refine ⟨?_, ?_, ?_⟩
  · exact exceptMapM_eq_map (EuclidQueryProver.rowStep E pis) outFn
      (rows_inputs.zip matching_rows) hok
  · intro i h1 h2 h3
    simp [List.get_eq_getElem, List.getElem_map, List.getElem_zip]
  · intro rows' ms' hperm
    constructor
    · exact exceptMapM_eq_map (EuclidQueryProver.rowStep E pis) outFn
        (rows'.zip ms') (fun pr hpr => hok pr (hperm.mem_iff.mp hpr))
    · exact hperm.map outFn

/-- C8 witness: two concrete rows hydrate pairwise in order under the
succeeding engine. -/
theorem C8_hydration_positional_witness :
    EuclidQueryProver.hydrated_matching_rows okEngine pis0 [row0, row1]
        [mrow 0, mrow 1]
      = Except.ok (([row0, row1].zip [mrow 0, mrow 1]).map
          (fun pr => { descriptor := pr.2.descriptor, proof := [7] })) :=
  (C8_hydration_positional okEngine pis0 [row0, row1] [mrow 0, mrow 1]
    (fun pr => { descriptor := pr.2.descriptor, proof := [7] })
    (by intro pr hpr; fin_cases hpr <;> rfl)).1

end Lgn
